import Mathlib

/-!
Shallow embedding of `package/MDAnalysis/coordinates/GSD.py` (the GSD
trajectory reader) and proofs about its behaviour.

Python floating-point values are modelled as real numbers; `numpy` float
arrays of shape N×3 are modelled as lists of triples.  Python exceptions
are modelled by an error value returned next to the post-call state, since
the shared mutable `Timestep` keeps any mutations made before the raise.
-/

namespace GSD

/-- The 6-component box descriptor `[Lx, Ly, Lz, xy, xz, yz]`
(`myframe.configuration.box`, also `ts.dimensions`). -/
structure Box6 where
  d0 : ℝ
  d1 : ℝ
  d2 : ℝ
  d3 : ℝ
  d4 : ℝ
  d5 : ℝ

/-- A frame's particles record (`myframe.particles`): declared count `N`,
and the `position` / `velocity` / `image` arrays (N×3). -/
structure Particles where
  N : ℕ
  position : List (ℝ × ℝ × ℝ)
  velocity : List (ℝ × ℝ × ℝ)
  image : List (ℤ × ℤ × ℤ)

/-- A frame's `configuration` record: the step counter and the box. -/
structure FrameConfig where
  step : ℤ
  box : Box6

/-- One frame as exposed by the `gsd.hoomd` container. -/
structure GSDFrameData where
  configuration : FrameConfig
  particles : Particles

/-- The shared mutable `Timestep` object (`self.ts`), with the fields this
reader populates: `frame`, `data['step']`, `dimensions`, `tilt_factors`,
`positions`, `velocities`, `images`. -/
structure Timestep where
  frame : ℤ
  step : ℤ
  dimensions : Box6
  tilt_factors : ℝ × ℝ × ℝ
  positions : List (ℝ × ℝ × ℝ)
  velocities : List (ℝ × ℝ × ℝ)
  images : List (ℤ × ℤ × ℤ)

/-- The Python exceptions the reader can raise.  `indexError` is the raw
out-of-range signal of the container (caught inside `_read_frame`),
`ioError` is the reader's end-of-data signal, `valueError` is the
variable-topology error carrying `(frame, n_atoms_now, self.n_atoms)`,
and `notImplementedError` is the Windows platform guard. -/
inductive GSDError where
  | indexError : GSDError
  | ioError : GSDError
  | valueError : ℤ → ℕ → ℕ → GSDError
  | notImplementedError : GSDError
deriving DecidableEq

/-- The reader's state (`GSDReader`): `filename` models the frame contents
stored at the path, `_file` the opened container handle, `_frame` the
cursor, `n_atoms` the reference particle count, `ts` the shared Timestep. -/
structure GSDReader where
  filename : List GSDFrameData
  _file : List GSDFrameData
  _frame : ℤ
  n_atoms : ℕ
  ts : Timestep

/-- Modelled from the spec: the FrameContainer collaborator (external
`gsd.hoomd` library, not part of this repository) with the contract
`handle[index] -> frame or out-of-range signal` and `len(handle) -> frame
count`; indices outside `[0, len)` give the out-of-range signal (negative
indexing treated as unsupported, per the spec's open question). -/
def fileGet (file : List GSDFrameData) (i : ℤ) : Option GSDFrameData :=
  if h : 0 ≤ i ∧ i.toNat < file.length then some (file.get ⟨i.toNat, h.2⟩)
  else none

/-- The box geometry decode of `_read_frame` (source lines 128-142): from
the raw descriptor whose components 4-6 are the tilt factors, compute
`a1a2` (gamma), `a1a3` (beta), `a2a3` (alpha) and overwrite components
4-6 with `[alpha, beta, gamma]` in degrees. -/
noncomputable def boxConvert (b : Box6) : Box6 :=
  let a1a2 := b.d3 / Real.sqrt (1 + b.d3 ^ 2)
  let a1a3 := b.d4 / Real.sqrt (1 + b.d4 ^ 2 + b.d5 ^ 2)
  let a2a3 := (b.d3 * b.d4 + b.d5) /
      (Real.sqrt (1 + b.d3 ^ 2) * Real.sqrt (1 + b.d4 ^ 2 + b.d5 ^ 2))
  let a1a2 := Real.arccos a1a2 * 180 / Real.pi
  let a1a3 := Real.arccos a1a3 * 180 / Real.pi
  let a2a3 := Real.arccos a2a3 * 180 / Real.pi
  { b with d3 := a2a3, d4 := a1a3, d5 := a1a2 }

/-- `GSDReader._read_frame(frame)`.  Returns the reader state after the
call together with the raised exception, if any: a raise aborts the
remaining statements but keeps every mutation already made to `self`. -/
noncomputable def _read_frame (r : GSDReader) (frame : ℤ) :
    GSDReader × Option GSDError :=
  match fileGet r._file frame with
  | none => (r, some GSDError.ioError)
  | some myframe =>
    let r1 := { r with _frame := frame }
    let ts1 := { r1.ts with
      frame := frame,
      step := myframe.configuration.step,
      dimensions := myframe.configuration.box }
    let ts2 := { ts1 with
      tilt_factors := (ts1.dimensions.d3, ts1.dimensions.d4, ts1.dimensions.d5) }
    let ts3 := { ts2 with dimensions := boxConvert ts2.dimensions }
    let frame_positions := myframe.particles.position
    let n_atoms_now := frame_positions.length
    if n_atoms_now ≠ r1.n_atoms then
      ({ r1 with ts := ts3 },
        some (GSDError.valueError frame n_atoms_now r1.n_atoms))
    else
      let ts4 := { ts3 with
        positions := frame_positions,
        images := myframe.particles.image,
        velocities := myframe.particles.velocity }
      ({ r1 with ts := ts4 }, none)

/-- `GSDReader._read_next_timestep`: read the next frame. -/
noncomputable def _read_next_timestep (r : GSDReader) :
    GSDReader × Option GSDError :=
  _read_frame r (r._frame + 1)

/-- `GSDReader.open_trajectory`: reset the cursor to -1 and (re)open the
container on the path's contents. -/
def open_trajectory (r : GSDReader) : GSDReader :=
  { r with _frame := -1, _file := r.filename }

/-- `GSDReader.close`: releases the OS-level handle, which has no
model-visible state. -/
def close (r : GSDReader) : GSDReader := r

/-- `GSDReader._reopen`: close then open. -/
def _reopen (r : GSDReader) : GSDReader :=
  open_trajectory (close r)

/-- `GSDReader.n_frames`: number of frames in the container. -/
def n_frames (r : GSDReader) : ℕ := r._file.length

/-- Modelled from the spec: the fresh frame-state record (the external
`base.Timestep(n_atoms)` allocation), "sized for that many particles";
its field contents before the first read are unspecified, so zeros. -/
def initTimestep (n : ℕ) : Timestep :=
  { frame := -1, step := 0,
    dimensions := ⟨0, 0, 0, 0, 0, 0⟩, tilt_factors := (0, 0, 0),
    positions := List.replicate n (0, 0, 0),
    velocities := List.replicate n (0, 0, 0),
    images := List.replicate n (0, 0, 0) }

/-- `GSDReader.__init__`: the Windows guard, then opening the container
(`disk = none` models an unopenable or invalid path), then
`n_atoms = self._file[0].particles.N` (an empty container raises the
container's raw IndexError here, uncaught), then the Timestep allocation
and the first `_read_next_timestep()`. -/
noncomputable def gsdReaderInit (onWindows : Bool)
    (disk : Option (List GSDFrameData)) : Except GSDError GSDReader :=
  if onWindows then Except.error GSDError.notImplementedError
  else
    match disk with
    | none => Except.error GSDError.ioError
    | some contents =>
      match contents with
      | [] => Except.error GSDError.indexError
      | f0 :: _ =>
        let n := f0.particles.N
        let r : GSDReader :=
          { filename := contents, _file := contents, _frame := -1,
            n_atoms := n, ts := initTimestep n }
        match _read_next_timestep r with
        | (r2, none) => Except.ok r2
        | (_, some e) => Except.error e

/-- Iterated sequential reading: `readNextN r k` is the state and last
raised exception after `k` successive `_read_next_timestep` calls. -/
noncomputable def readNextN (r : GSDReader) : ℕ → GSDReader × Option GSDError
  | 0 => (r, none)
  | Nat.succ k => _read_next_timestep (readNextN r k).1

/-- Every frame of the opened container has a position array whose first
dimension matches the reference particle count. -/
def framesOK (r : GSDReader) : Prop :=
  ∀ f ∈ r._file, f.particles.position.length = r.n_atoms

instance (r : GSDReader) : Decidable (framesOK r) := by
  unfold framesOK; infer_instance

/-- The degrees-of-arccos conversion as the spec writes it:
`degrees(arccos(x))`. -/
noncomputable def specDegrees (x : ℝ) : ℝ := Real.arccos x * 180 / Real.pi

/-- The spec's formula `cos_gamma = xy / sqrt(1 + xy^2)`. -/
noncomputable def specCosGamma (xy : ℝ) : ℝ := xy / Real.sqrt (1 + xy ^ 2)

/-- The spec's formula `cos_beta = xz / sqrt(1 + xz^2 + yz^2)`. -/
noncomputable def specCosBeta (xz yz : ℝ) : ℝ :=
  xz / Real.sqrt (1 + xz ^ 2 + yz ^ 2)

/-- The spec's formula
`cos_alpha = (xy*xz + yz) / (sqrt(1 + xy^2) * sqrt(1 + xz^2 + yz^2))`. -/
noncomputable def specCosAlpha (xy xz yz : ℝ) : ℝ :=
  (xy * xz + yz) / (Real.sqrt (1 + xy ^ 2) * Real.sqrt (1 + xz ^ 2 + yz ^ 2))

/-! ### Branch characterizations of `_read_frame` -/

theorem read_frame_none (r : GSDReader) (i : ℤ)
    (h : fileGet r._file i = none) :
    _read_frame r i = (r, some GSDError.ioError) := by
  unfold _read_frame
  rw [h]

theorem read_frame_mismatch (r : GSDReader) (i : ℤ) (f : GSDFrameData)
    (h : fileGet r._file i = some f)
    (hn : f.particles.position.length ≠ r.n_atoms) :
    _read_frame r i =
      ({ r with
         _frame := i,
         ts := { r.ts with
                 frame := i,
                 step := f.configuration.step,
                 dimensions := boxConvert f.configuration.box,
                 tilt_factors := (f.configuration.box.d3,
                   f.configuration.box.d4, f.configuration.box.d5) } },
       some (GSDError.valueError i f.particles.position.length r.n_atoms)) := by
  unfold _read_frame
  rw [h]
  simp [hn]

theorem read_frame_ok (r : GSDReader) (i : ℤ) (f : GSDFrameData)
    (h : fileGet r._file i = some f)
    (hn : f.particles.position.length = r.n_atoms) :
    _read_frame r i =
      ({ r with
         _frame := i,
         ts := { frame := i,
                 step := f.configuration.step,
                 dimensions := boxConvert f.configuration.box,
                 tilt_factors := (f.configuration.box.d3,
                   f.configuration.box.d4, f.configuration.box.d5),
                 positions := f.particles.position,
                 velocities := f.particles.velocity,
                 images := f.particles.image } }, none) := by
  unfold _read_frame
  rw [h]
  simp [hn]

theorem fileGet_of_range (file : List GSDFrameData) (i : ℤ)
    (h0 : 0 ≤ i) (h1 : i.toNat < file.length) :
    fileGet file i = some (file.get ⟨i.toNat, h1⟩) := by
  unfold fileGet
  rw [dif_pos ⟨h0, h1⟩]

theorem fileGet_of_out_of_range (file : List GSDFrameData) (i : ℤ)
    (h : i < 0 ∨ (file.length : ℤ) ≤ i) :
    fileGet file i = none := by
  unfold fileGet
  rw [dif_neg]
  rintro ⟨h0, h1⟩
  rcases h with h | h
  · exact absurd h0 (not_le.mpr h)
  · rw [Int.toNat_lt h0] at h1
    exact absurd h (not_le.mpr h1)

/-! ### Concrete data for witnesses -/

/-- A concrete one-particle frame. -/
def wFrameA : GSDFrameData :=
  { configuration := { step := 5, box := ⟨2, 3, 4, 1, 0, 0⟩ },
    particles := { N := 1, position := [(1, 2, 3)],
                   velocity := [(4, 5, 6)], image := [(1, 0, 0)] } }

/-- A concrete freshly opened reader over a one-frame container. -/
def wReaderA : GSDReader :=
  { filename := [wFrameA], _file := [wFrameA], _frame := -1,
    n_atoms := 1, ts := initTimestep 1 }

/-! ### Claims -/

/-- C1: for every frame read, after the box geometry decode, positions 4-6
of `box_dimensions` hold the angles `[alpha, beta, gamma]` in degrees, in
exactly that order, computed from the raw tilt factors `(xy, xz, yz)` by
the documented formulas `cos_gamma = xy/sqrt(1+xy^2)`,
`cos_beta = xz/sqrt(1+xz^2+yz^2)`,
`cos_alpha = (xy*xz+yz)/(sqrt(1+xy^2)*sqrt(1+xz^2+yz^2))`, each converted
through arccos and to degrees. -/
theorem box_angles_alpha_beta_gamma (r : GSDReader) (i : ℤ) (f : GSDFrameData)
    (h : fileGet r._file i = some f) :
    ((_read_frame r i).1).ts.dimensions.d3 =
      specDegrees (specCosAlpha f.configuration.box.d3
        f.configuration.box.d4 f.configuration.box.d5) ∧
    ((_read_frame r i).1).ts.dimensions.d4 =
      specDegrees (specCosBeta f.configuration.box.d4
        f.configuration.box.d5) ∧
    ((_read_frame r i).1).ts.dimensions.d5 =
      specDegrees (specCosGamma f.configuration.box.d3) := by
  by_cases hn : f.particles.position.length = r.n_atoms
  · rw [read_frame_ok r i f h hn]
    simp [boxConvert, specDegrees, specCosAlpha, specCosBeta, specCosGamma]
  · rw [read_frame_mismatch r i f h hn]
    simp [boxConvert, specDegrees, specCosAlpha, specCosBeta, specCosGamma]

/-- Witness for C1 at a concrete reader and frame index 0. -/
theorem box_angles_alpha_beta_gamma_w :
    fileGet wReaderA._file 0 = some wFrameA ∧
    (((_read_frame wReaderA 0).1).ts.dimensions.d3 =
      specDegrees (specCosAlpha wFrameA.configuration.box.d3
        wFrameA.configuration.box.d4 wFrameA.configuration.box.d5) ∧
    ((_read_frame wReaderA 0).1).ts.dimensions.d4 =
      specDegrees (specCosBeta wFrameA.configuration.box.d4
        wFrameA.configuration.box.d5) ∧
    ((_read_frame wReaderA 0).1).ts.dimensions.d5 =
      specDegrees (specCosGamma wFrameA.configuration.box.d3)) :=
  ⟨rfl, box_angles_alpha_beta_gamma wReaderA 0 wFrameA rfl⟩

/-- C3: every index at or beyond `n_frames`, and every index below
`-n_frames`, makes `_read_frame` fail with the reader's end-of-data error
(the `IOError` it raises itself), not with the container's raw
out-of-range `IndexError`. -/
theorem out_of_range_gives_ioerror (r : GSDReader) (i : ℤ)
    (h : (n_frames r : ℤ) ≤ i ∨ i < -(n_frames r : ℤ)) :
    (_read_frame r i).2 = some GSDError.ioError ∧
    (_read_frame r i).2 ≠ some GSDError.indexError := by
  simp only [n_frames] at h
  have hout : fileGet r._file i = none := by
    apply fileGet_of_out_of_range
    rcases h with h | h
    · exact Or.inr h
    · refine Or.inl ?_
      have h0 : (0 : ℤ) ≤ (r._file.length : ℤ) := Int.ofNat_nonneg _
      linarith
  rw [read_frame_none r i hout]
  exact ⟨rfl, by simp⟩

/-- Witness for C3 at the concrete reader and index `n_frames = 1`. -/
theorem out_of_range_gives_ioerror_w :
    ((n_frames wReaderA : ℤ) ≤ 1 ∨ (1 : ℤ) < -(n_frames wReaderA : ℤ)) ∧
    ((_read_frame wReaderA 1).2 = some GSDError.ioError ∧
     (_read_frame wReaderA 1).2 ≠ some GSDError.indexError) :=
  ⟨Or.inl (by decide), out_of_range_gives_ioerror wReaderA 1 (Or.inl (by decide))⟩

/-- C4: for every frame read, `tilt_factors` equals the raw `[xy, xz, yz]`
components 4-6 of the container's box descriptor, taken before the angle
conversion, never the post-conversion angles. -/
theorem tilt_factors_are_raw (r : GSDReader) (i : ℤ) (f : GSDFrameData)
    (h : fileGet r._file i = some f) :
    ((_read_frame r i).1).ts.tilt_factors =
      (f.configuration.box.d3, f.configuration.box.d4,
        f.configuration.box.d5) := by
  by_cases hn : f.particles.position.length = r.n_atoms
  · rw [read_frame_ok r i f h hn]
  · rw [read_frame_mismatch r i f h hn]

/-- Witness for C4 at a concrete reader and frame index 0. -/
theorem tilt_factors_are_raw_w :
    fileGet wReaderA._file 0 = some wFrameA ∧
    ((_read_frame wReaderA 0).1).ts.tilt_factors =
      (wFrameA.configuration.box.d3, wFrameA.configuration.box.d4,
        wFrameA.configuration.box.d5) :=
  ⟨rfl, tilt_factors_are_raw wReaderA 0 wFrameA rfl⟩

/-- A reader whose reference count 2 mismatches `wFrameA`'s one position. -/
def wReaderB : GSDReader :=
  { filename := [wFrameA], _file := [wFrameA], _frame := -1,
    n_atoms := 2, ts := initTimestep 2 }

/-- A concrete frame distinct from `wFrameA`. -/
def wFrameC : GSDFrameData :=
  { configuration := { step := 9, box := ⟨1, 1, 1, 0, 1, 0⟩ },
    particles := { N := 1, position := [(7, 8, 9)],
                   velocity := [(0, 0, 1)], image := [(0, 2, 0)] } }

/-- A reader whose reference count 3 mismatches `wFrameC`'s one position. -/
def wReaderC : GSDReader :=
  { filename := [wFrameC], _file := [wFrameC], _frame := -1,
    n_atoms := 3, ts := initTimestep 3 }

/-- C2: when the frame's particle count differs from the reference count,
`_read_frame` fails with the mismatch error carrying the frame index, the
observed count and the expected count, and the positions, velocities and
images of the shared Timestep keep their prior values. -/
theorem topology_mismatch_preserves_arrays (r : GSDReader) (i : ℤ)
    (f : GSDFrameData) (h : fileGet r._file i = some f)
    (hn : f.particles.position.length ≠ r.n_atoms) :
    (_read_frame r i).2 =
      some (GSDError.valueError i f.particles.position.length r.n_atoms) ∧
    ((_read_frame r i).1).ts.positions = r.ts.positions ∧
    ((_read_frame r i).1).ts.velocities = r.ts.velocities ∧
    ((_read_frame r i).1).ts.images = r.ts.images := by
  rw [read_frame_mismatch r i f h hn]
  exact ⟨rfl, rfl, rfl, rfl⟩

/-- Witness for C2: a one-position frame against reference count 2. -/
theorem topology_mismatch_preserves_arrays_w :
    (fileGet wReaderB._file 0 = some wFrameA ∧
     wFrameA.particles.position.length ≠ wReaderB.n_atoms) ∧
    ((_read_frame wReaderB 0).2 =
      some (GSDError.valueError 0 wFrameA.particles.position.length
        wReaderB.n_atoms) ∧
    ((_read_frame wReaderB 0).1).ts.positions = wReaderB.ts.positions ∧
    ((_read_frame wReaderB 0).1).ts.velocities = wReaderB.ts.velocities ∧
    ((_read_frame wReaderB 0).1).ts.images = wReaderB.ts.images) :=
  ⟨⟨rfl, by decide⟩,
    topology_mismatch_preserves_arrays wReaderB 0 wFrameA rfl (by decide)⟩

/-- C9: when `_read_frame` fails on a particle-count mismatch, the cursor,
the Timestep's frame index, step, box dimensions (with the derived angles)
and tilt factors have already been overwritten with the new frame's
values, while positions, velocities and images have not. -/
theorem mismatch_partial_mutation (r : GSDReader) (i : ℤ)
    (f : GSDFrameData) (h : fileGet r._file i = some f)
    (hn : f.particles.position.length ≠ r.n_atoms) :
    ((_read_frame r i).1)._frame = i ∧
    ((_read_frame r i).1).ts.frame = i ∧
    ((_read_frame r i).1).ts.step = f.configuration.step ∧
    ((_read_frame r i).1).ts.dimensions = boxConvert f.configuration.box ∧
    ((_read_frame r i).1).ts.tilt_factors =
      (f.configuration.box.d3, f.configuration.box.d4,
        f.configuration.box.d5) ∧
    ((_read_frame r i).1).ts.positions = r.ts.positions ∧
    ((_read_frame r i).1).ts.velocities = r.ts.velocities ∧
    ((_read_frame r i).1).ts.images = r.ts.images := by
  rw [read_frame_mismatch r i f h hn]
  exact ⟨rfl, rfl, rfl, rfl, rfl, rfl, rfl, rfl⟩

/-- Witness for C9: a one-position frame against reference count 3. -/
theorem mismatch_partial_mutation_w :
    (fileGet wReaderC._file 0 = some wFrameC ∧
     wFrameC.particles.position.length ≠ wReaderC.n_atoms) ∧
    (((_read_frame wReaderC 0).1)._frame = 0 ∧
    ((_read_frame wReaderC 0).1).ts.frame = 0 ∧
    ((_read_frame wReaderC 0).1).ts.step = wFrameC.configuration.step ∧
    ((_read_frame wReaderC 0).1).ts.dimensions =
      boxConvert wFrameC.configuration.box ∧
    ((_read_frame wReaderC 0).1).ts.tilt_factors =
      (wFrameC.configuration.box.d3, wFrameC.configuration.box.d4,
        wFrameC.configuration.box.d5) ∧
    ((_read_frame wReaderC 0).1).ts.positions = wReaderC.ts.positions ∧
    ((_read_frame wReaderC 0).1).ts.velocities = wReaderC.ts.velocities ∧
    ((_read_frame wReaderC 0).1).ts.images = wReaderC.ts.images) :=
  ⟨⟨rfl, by decide⟩,
    mismatch_partial_mutation wReaderC 0 wFrameC rfl (by decide)⟩

/-- C6: a successful `_read_frame` at a valid index `i` sets both the
cursor and the Timestep's frame field to `i`. -/
theorem read_frame_sets_index (r : GSDReader) (i : ℤ)
    (h0 : 0 ≤ i) (h1 : i < (n_frames r : ℤ))
    (hs : (_read_frame r i).2 = none) :
    ((_read_frame r i).1)._frame = i ∧
    ((_read_frame r i).1).ts.frame = i := by
  have hlt : i.toNat < r._file.length := by
    simp only [n_frames] at h1
    omega
  have h := fileGet_of_range r._file i h0 hlt
  by_cases hn :
      (r._file.get ⟨i.toNat, hlt⟩).particles.position.length = r.n_atoms
  · rw [read_frame_ok r i _ h hn]
    exact ⟨rfl, rfl⟩
  · rw [read_frame_mismatch r i _ h hn]
    exact ⟨rfl, rfl⟩

/-- Witness for C6 at the concrete reader and index 0. -/
theorem read_frame_sets_index_w :
    ((0 : ℤ) ≤ 0 ∧ (0 : ℤ) < (n_frames wReaderA : ℤ) ∧
     (_read_frame wReaderA 0).2 = none) ∧
    (((_read_frame wReaderA 0).1)._frame = 0 ∧
     ((_read_frame wReaderA 0).1).ts.frame = 0) :=
  ⟨⟨le_refl 0, by decide, rfl⟩,
    read_frame_sets_index wReaderA 0 (le_refl 0) (by decide) rfl⟩

/-- C7: reopening (close then open) resets the cursor to -1, so the next
`_read_next_timestep` reads frame 0, whatever the cursor was before. -/
theorem reopen_resets_cursor (r : GSDReader) :
    (_reopen r)._frame = -1 ∧
    _read_next_timestep (_reopen r) = _read_frame (_reopen r) 0 := by
  refine ⟨rfl, ?_⟩
  unfold _read_next_timestep
  norm_num [_reopen, open_trajectory, close]

theorem read_frame_preserves (r : GSDReader) (i : ℤ) :
    ((_read_frame r i).1)._file = r._file ∧
    ((_read_frame r i).1).n_atoms = r.n_atoms ∧
    ((_read_frame r i).1).filename = r.filename := by
  rcases hf : fileGet r._file i with _ | f
  · rw [read_frame_none r i hf]
    exact ⟨rfl, rfl, rfl⟩
  · by_cases hn : f.particles.position.length = r.n_atoms
    · rw [read_frame_ok r i f hf hn]
      exact ⟨rfl, rfl, rfl⟩
    · rw [read_frame_mismatch r i f hf hn]
      exact ⟨rfl, rfl, rfl⟩

/-- C8: on a platform lacking the `gsd` library the constructor fails with
`NotImplementedError` for every possible disk state — including an
unopenable path (`disk = none`) — so the failure precedes any file I/O. -/
theorem windows_guard_precedes_container (disk : Option (List GSDFrameData)) :
    gsdReaderInit true disk = Except.error GSDError.notImplementedError := rfl

/-- C10: the reference count comes from frame 0's declared `particles.N`
at construction, while every `_read_frame` validates the frame against the
length of its position array alone: the read succeeds exactly when the
position-array length matches the reference, with the frame's declared
count playing no role. -/
theorem reference_count_vs_position_length :
    (∀ (f0 : GSDFrameData) (rest : List GSDFrameData) (r : GSDReader),
      gsdReaderInit false (some (f0 :: rest)) = Except.ok r →
      r.n_atoms = f0.particles.N) ∧
    (∀ (r : GSDReader) (i : ℤ) (f : GSDFrameData),
      fileGet r._file i = some f →
      ((_read_frame r i).2 = none ↔
        f.particles.position.length = r.n_atoms)) := by
  constructor
  · intro f0 rest r hok
    simp only [gsdReaderInit, Bool.false_eq_true, if_false] at hok
    rcases h2 : _read_next_timestep
        { filename := f0 :: rest, _file := f0 :: rest, _frame := -1,
          n_atoms := f0.particles.N,
          ts := initTimestep f0.particles.N } with ⟨r2, e⟩
    rw [h2] at hok
    cases e with
    | none =>
      have hr : r2 = r := by
        simpa using hok
      have hpres := (read_frame_preserves
        { filename := f0 :: rest, _file := f0 :: rest, _frame := -1,
          n_atoms := f0.particles.N,
          ts := initTimestep f0.particles.N } (-1 + 1)).2.1
      have hr2 : (_read_next_timestep
          { filename := f0 :: rest, _file := f0 :: rest, _frame := -1,
            n_atoms := f0.particles.N,
            ts := initTimestep f0.particles.N }).1 = r2 := by
        rw [h2]
      rw [← hr, ← hr2]
      exact hpres
    | some e2 =>
      simp at hok
  · intro r i f hf
    by_cases hn : f.particles.position.length = r.n_atoms
    · rw [read_frame_ok r i f hf hn]
      simp [hn]
    · rw [read_frame_mismatch r i f hf hn]
      simp [hn]

/-- The reader state produced by constructing over the one-frame container
`[wFrameA]`. -/
noncomputable def wReaderInit : GSDReader := (_read_next_timestep wReaderA).1

/-- Witness for C10: a concrete successful construction and a concrete
read whose success is decided by the position-array length. -/
theorem reference_count_vs_position_length_w :
    (gsdReaderInit false (some [wFrameA]) = Except.ok wReaderInit ∧
     wReaderInit.n_atoms = wFrameA.particles.N) ∧
    (fileGet wReaderA._file 0 = some wFrameA ∧
     ((_read_frame wReaderA 0).2 = none ↔
       wFrameA.particles.position.length = wReaderA.n_atoms)) :=
  ⟨⟨rfl, reference_count_vs_position_length.1 wFrameA [] wReaderInit rfl⟩,
   ⟨rfl, reference_count_vs_position_length.2 wReaderA 0 wFrameA rfl⟩⟩

theorem readNextN_state (r : GSDReader) (hok : framesOK r)
    (hc : r._frame = -1) :
    ∀ k : ℕ, k ≤ n_frames r →
      (readNextN r k).1._file = r._file ∧
      (readNextN r k).1.n_atoms = r.n_atoms ∧
      (readNextN r k).1._frame = (k : ℤ) - 1 := by
  intro k
  induction k with
  | zero =>
    intro _
    exact ⟨rfl, rfl, by simp [readNextN, hc]⟩
  | succ m ih =>
    intro hm
    obtain ⟨hfile, hatoms, hframe⟩ := ih (Nat.le_of_succ_le hm)
    have hmlt : ((m : ℤ)).toNat < r._file.length := by
      simp only [n_frames] at hm
      omega
    have hget : fileGet (readNextN r m).1._file (m : ℤ) =
        some (r._file.get ⟨((m : ℤ)).toNat, hmlt⟩) := by
      rw [hfile]
      exact fileGet_of_range _ _ (Int.ofNat_nonneg m) hmlt
    have hlen : (r._file.get ⟨((m : ℤ)).toNat, hmlt⟩).particles.position.length
        = (readNextN r m).1.n_atoms := by
      rw [hatoms]
      exact hok _ (List.get_mem _ _ _)
    have hstep : readNextN r (m + 1) =
        _read_frame (readNextN r m).1 ((readNextN r m).1._frame + 1) := rfl
    have hadd : ((m : ℤ) - 1) + 1 = (m : ℤ) := by ring
    rw [hstep, hframe, hadd, read_frame_ok _ _ _ hget hlen]
    refine ⟨hfile, hatoms, ?_⟩
    push_cast
    ring

theorem readNextN_reads_k (r : GSDReader) (hok : framesOK r)
    (hc : r._frame = -1) (k : ℕ) (hk : k < n_frames r) :
    (readNextN r (k + 1)).2 = none ∧
    (readNextN r (k + 1)).1._frame = (k : ℤ) ∧
    (readNextN r (k + 1)).1.ts.frame = (k : ℤ) := by
  obtain ⟨hfile, hatoms, hframe⟩ :=
    readNextN_state r hok hc k (Nat.le_of_lt hk)
  have hmlt : ((k : ℤ)).toNat < r._file.length := by
    simp only [n_frames] at hk
    omega
  have hget : fileGet (readNextN r k).1._file (k : ℤ) =
      some (r._file.get ⟨((k : ℤ)).toNat, hmlt⟩) := by
    rw [hfile]
    exact fileGet_of_range _ _ (Int.ofNat_nonneg k) hmlt
  have hlen : (r._file.get ⟨((k : ℤ)).toNat, hmlt⟩).particles.position.length
      = (readNextN r k).1.n_atoms := by
    rw [hatoms]
    exact hok _ (List.get_mem _ _ _)
  have hstep : readNextN r (k + 1) =
      _read_frame (readNextN r k).1 ((readNextN r k).1._frame + 1) := rfl
  have hadd : ((k : ℤ) - 1) + 1 = (k : ℤ) := by ring
  rw [hstep, hframe, hadd, read_frame_ok _ _ _ hget hlen]
  exact ⟨rfl, rfl, rfl⟩

theorem readNextN_past_end (r : GSDReader) (hok : framesOK r)
    (hc : r._frame = -1) :
    (readNextN r (n_frames r + 1)).2 = some GSDError.ioError := by
  obtain ⟨hfile, hatoms, hframe⟩ :=
    readNextN_state r hok hc (n_frames r) le_rfl
  have hget : fileGet (readNextN r (n_frames r)).1._file
      ((readNextN r (n_frames r)).1._frame + 1) = none := by
    rw [hfile, hframe]
    apply fileGet_of_out_of_range
    right
    simp only [n_frames]
    omega
  have hstep : readNextN r (n_frames r + 1) =
      _read_frame (readNextN r (n_frames r)).1
        ((readNextN r (n_frames r)).1._frame + 1) := rfl
  rw [hstep, read_frame_none _ _ hget]

/-- C5: `_read_next_timestep` is `_read_frame` at cursor + 1, and from a
freshly opened reader over a well-formed container the successive calls
read frames 0 through `n_frames - 1` exactly once each, in increasing
order, while the `n_frames`-th further call fails with the end-of-data
error. -/
theorem read_next_sequential (r : GSDReader) (hok : framesOK r)
    (hc : r._frame = -1) :
    (∀ s : GSDReader, _read_next_timestep s = _read_frame s (s._frame + 1)) ∧
    (∀ k : ℕ, k < n_frames r →
      (readNextN r (k + 1)).2 = none ∧
      (readNextN r (k + 1)).1._frame = (k : ℤ) ∧
      (readNextN r (k + 1)).1.ts.frame = (k : ℤ)) ∧
    (readNextN r (n_frames r + 1)).2 = some GSDError.ioError :=
  ⟨fun _ => rfl, fun k hk => readNextN_reads_k r hok hc k hk,
    readNextN_past_end r hok hc⟩

/-- Witness for C5 at the concrete freshly opened one-frame reader. -/
theorem read_next_sequential_w :
    (framesOK wReaderA ∧ wReaderA._frame = -1) ∧
    ((readNextN wReaderA 1).2 = none ∧
     (readNextN wReaderA 1).1._frame = (0 : ℤ) ∧
     (readNextN wReaderA 1).1.ts.frame = (0 : ℤ) ∧
     (readNextN wReaderA (n_frames wReaderA + 1)).2 =
       some GSDError.ioError) :=
  ⟨⟨by decide, rfl⟩,
   ⟨((read_next_sequential wReaderA (by decide) rfl).2.1 0 (by decide)).1,
    ((read_next_sequential wReaderA (by decide) rfl).2.1 0 (by decide)).2.1,
    ((read_next_sequential wReaderA (by decide) rfl).2.1 0 (by decide)).2.2,
    (read_next_sequential wReaderA (by decide) rfl).2.2⟩⟩

end GSD
